import Mathlib

/-!
Verification of the redis sink (`internal/io/redis/sink.go`): mutation
resolution, store-operation dispatch, config validation, batch collection
and the ping path, embedded shallowly with an injectable store client.
-/

namespace RedisSink

/-- JSON-like values carried in a record (the `any` payload of a decoded row). -/
inductive Value where
  | str : String → Value
  | int : Int → Value
  | bool : Bool → Value
  | null : Value
  | arr : List Value → Value
  | obj : List (String × Value) → Value

/-- A record is a mapping from field name to value; we embed the Go map as an
association list fixing one iteration order (Go map iteration order is
unspecified), with unique keys left to hypotheses where they matter. -/
abbrev Record := List (String × Value)

/-- Modelled from the spec: the repository's `cast.ToString` with
`CONVERT_ALL` (package `pkg/cast`, not under `src/`) — best-effort conversion
of a value to its string representation: strings pass through, numbers and
booleans render, structured values are unconvertible and fail. -/
def castToString : Value → Except String String
  | Value.str s => Except.ok s
  | Value.int n => Except.ok (toString n)
  | Value.bool b => Except.ok (if b then "true" else "false")
  | Value.null => Except.ok ""
  | Value.arr _ => Except.error "cannot convert to string"
  | Value.obj _ => Except.error "cannot convert to string"

/-- The Go idiom `v, _ := cast.ToString(val, cast.CONVERT_ALL)`: on conversion
failure the zero value `""` is kept and the error discarded. -/
def castToStringOrEmpty (v : Value) : String :=
  match castToString v with
  | Except.ok s => s
  | Except.error _ => ""

/-- JSON string escaping for `encoding/json` output (quote and backslash). -/
def escapeChars : List Char → String
  | [] => ""
  | c :: rest =>
    (if c = '\"' then "\\\"" else if c = '\\' then "\\\\" else String.singleton c)
      ++ escapeChars rest

/-- Render one JSON string literal. -/
def jsonString (s : String) : String :=
  "\"" ++ escapeChars s.data ++ "\""

mutual

/-- JSON encoding of a value, as `json.Marshal` renders it. -/
def jsonValue : Value → String
  | Value.str s => jsonString s
  | Value.int n => toString n
  | Value.bool b => if b then "true" else "false"
  | Value.null => "null"
  | Value.arr vs => "[" ++ jsonSeq vs ++ "]"
  | Value.obj fs => "\x7b" ++ jsonFields fs ++ "\x7d"

/-- Comma-joined JSON encodings of a list of values. -/
def jsonSeq : List Value → String
  | [] => ""
  | [v] => jsonValue v
  | v :: rest => jsonValue v ++ "," ++ jsonSeq rest

/-- Comma-joined `"key":value` pairs of an object body. -/
def jsonFields : List (String × Value) → String
  | [] => ""
  | [(k, v)] => jsonString k ++ ":" ++ jsonValue v
  | (k, v) :: rest => jsonString k ++ ":" ++ jsonValue v ++ "," ++ jsonFields rest

end

/-- `json.Marshal(data)` for a record: a JSON object. -/
def jsonEncode (data : Record) : String :=
  "\x7b" ++ jsonFields data ++ "\x7d"

/-- The sink configuration (`config` struct in `sink.go`). -/
structure Config where
  addr : String := ""
  username : String := ""
  password : String := ""
  db : Int := 0
  field : String := ""
  key : String := ""
  keyType : String := ""
  dataType : String := ""
  expiration : Int := 0
  rowkindField : String := ""
  dataTemplate : String := ""
  fields : List String := []
  dataField : String := ""
deriving Repr, DecidableEq

/-- Raw properties handed to provisioning/validation: each recognized option
either present (with its decoded value) or absent, as `cast.MapToStruct`
overlays them onto the defaulted struct. -/
structure Props where
  addr : Option String := none
  username : Option String := none
  password : Option String := none
  db : Option Int := none
  field : Option String := none
  key : Option String := none
  keyType : Option String := none
  dataType : Option String := none
  expiration : Option Int := none
  rowkindField : Option String := none
  dataTemplate : Option String := none
  fields : Option (List String) := none
  dataField : Option String := none
deriving Repr, DecidableEq

/-- `cast.MapToStruct(props, c)` applied to the defaulted struct
`config{DataType: "string", Expiration: -1, KeyType: "single"}`: present
options overwrite the defaults, absent ones keep them. -/
def mapToStruct (p : Props) : Config where
  addr := p.addr.getD ""
  username := p.username.getD ""
  password := p.password.getD ""
  db := p.db.getD 0
  field := p.field.getD ""
  key := p.key.getD ""
  keyType := p.keyType.getD "single"
  dataType := p.dataType.getD "string"
  expiration := p.expiration.getD (-1)
  rowkindField := p.rowkindField.getD ""
  dataTemplate := p.dataTemplate.getD ""
  fields := p.fields.getD []
  dataField := p.dataField.getD ""

/-- `(*RedisSink).Validate`: decode with defaults, then check the invariants
in order; return the config only when all hold. -/
def validate (p : Props) : Except String Config :=
  let c := mapToStruct p
  if c.db < 0 ∨ c.db > 15 then
    Except.error "redisSink db should be in range 0-15"
  else if c.keyType = "single" ∧ c.key = "" ∧ c.field = "" then
    Except.error "redis sink must have key or field when KeyType is single"
  else if c.keyType ≠ "single" ∧ c.keyType ≠ "multiple" then
    Except.error "KeyType only support single or multiple"
  else if c.dataType ≠ "string" ∧ c.dataType ≠ "list" then
    Except.error "redis sink only support string or list data type"
  else
    Except.ok c

/-- The sink's persistent state: the stored config pointer `r.c`
(`none` models the nil pointer before any successful validation). -/
structure SinkState where
  c : Option Config
deriving Repr, DecidableEq

/-- `Validate` as a method: on success it assigns `r.c = c`; on failure the
error is returned and the stored state is untouched. -/
def validateM (r : SinkState) (p : Props) : SinkState × Option String :=
  match validate p with
  | Except.ok c => ({ c := some c }, none)
  | Except.error e => (r, some e)

/-- A resolved (key, serializedValue, rowkind) triple. -/
structure Mutation where
  key : String
  value : String
  rowkind : String
deriving Repr, DecidableEq

/-- Key/value resolution of `save`: in `multiple` key mode every field becomes
a key with its best-effort string value; in single mode the record is JSON
encoded under the static key or the string conversion of `data[field]`. -/
def resolveValues (c : Config) (data : Record) : Except String (List (String × String)) :=
  if c.keyType = "multiple" then
    Except.ok (data.map fun kv => (kv.1, castToStringOrEmpty kv.2))
  else
    let val := jsonEncode data
    if c.field ≠ "" then
      match data.lookup c.field with
      | none => Except.error ("field " ++ c.field ++ " does not exist in data")
      | some keyval =>
        match castToString keyval with
        | Except.ok key => Except.ok [(key, val)]
        | Except.error _ => Except.error "key must be string or convertible to string"
    else
      Except.ok [(c.key, val)]

/-- Rowkind resolution of `save`: default `upsert`; when `rowkindField` is
configured and the field present, its value must pass the string type
assertion and be one of the four recognized kinds. -/
def resolveRowkind (c : Config) (data : Record) : Except String String :=
  if c.rowkindField = "" then
    Except.ok "upsert"
  else
    match data.lookup c.rowkindField with
    | none => Except.ok "upsert"
    | some v =>
      match v with
      | Value.str rk =>
        if rk ≠ "insert" ∧ rk ≠ "update" ∧ rk ≠ "delete" ∧ rk ≠ "upsert" then
          Except.error ("invalid rowkind " ++ rk)
        else
          Except.ok rk
      | _ => Except.error ("rowkind field " ++ c.rowkindField ++ " is not a string in data")

/-- The spec's `resolve(config, record)`: the sequence of Mutations `save`
derives before touching the store. -/
def resolve (c : Config) (data : Record) : Except String (List Mutation) :=
  match resolveValues c data with
  | Except.error e => Except.error e
  | Except.ok values =>
    match resolveRowkind c data with
    | Except.error e => Except.error e
    | Except.ok rk => Except.ok (values.map fun kv => ⟨kv.1, kv.2, rk⟩)

/-- A store operation issued to the redis client. -/
inductive StoreOp where
  | set : String → String → Int → StoreOp
  | lpush : String → String → StoreOp
  | del : String → StoreOp
  | lpop : String → StoreOp
deriving Repr, DecidableEq

/-- The redis client as an oracle: `none` means the operation succeeds,
`some e` that it fails with error `e`. -/
abbrev Client := StoreOp → Option String

/-- The operation `save`'s dispatch switch issues for one key/value pair given
the rowkind and data type; `none` is the `default:` branch (logged, no op). -/
def opFor (c : Config) (rk key val : String) : Option StoreOp :=
  if rk = "insert" ∨ rk = "update" ∨ rk = "upsert" then
    some (if c.dataType = "list" then StoreOp.lpush key val
          else StoreOp.set key val c.expiration)
  else if rk = "delete" then
    some (if c.dataType = "list" then StoreOp.lpop key else StoreOp.del key)
  else
    none

/-- How `save` wraps a failing operation's client error before returning it. -/
def wrapErr (op : StoreOp) (e : String) : String :=
  match op with
  | StoreOp.set key val _ => "set " ++ key ++ ":" ++ val ++ " error, " ++ e
  | StoreOp.lpush key val => "lpush " ++ key ++ ":" ++ val ++ " error, " ++ e
  | StoreOp.lpop key => "lpop " ++ key ++ " error, " ++ e
  | StoreOp.del _ => e

/-- The write loop of `save` over the resolved pairs: returns the operations
attempted in order, and the wrapped error of the first failure — at which
point the loop returns and the remaining pairs are not attempted. -/
def writeValues (c : Config) (cli : Client) (rk : String) :
    List (String × String) → List StoreOp × Option String
  | [] => ([], none)
  | (key, val) :: rest =>
    match opFor c rk key val with
    | none => writeValues c cli rk rest
    | some op =>
      match cli op with
      | some e => ([op], some (wrapErr op e))
      | none =>
        let r := writeValues c cli rk rest
        (op :: r.1, r.2)

/-- The operations the dispatch switch issues for a list of key/value pairs
(the `default:` branch issuing none). -/
def opsOf (c : Config) (rk : String) (vs : List (String × String)) : List StoreOp :=
  vs.filterMap fun kv => opFor c rk kv.1 kv.2

/-- `(*RedisSink).save`: resolve key/value pairs, resolve the rowkind, then
run the write loop; returns the operations attempted and the error, if any. -/
def save (c : Config) (cli : Client) (data : Record) : List StoreOp × Option String :=
  match resolveValues c data with
  | Except.error e => ([], some e)
  | Except.ok values =>
    match resolveRowkind c data with
    | Except.error e => ([], some e)
    | Except.ok rk => writeValues c cli rk values

/-- The body of `(*RedisSink).CollectList`'s range: save each tuple in order,
log (collect) each per-record error, always continue. -/
def collectListGo (c : Config) (cli : Client) : List Record → List StoreOp × List String
  | [] => ([], [])
  | d :: rest =>
    let r := save c cli d
    let t := collectListGo c cli rest
    (r.1 ++ t.1, r.2.toList ++ t.2)

/-- `(*RedisSink).CollectList`: ranges over the batch and returns `nil`
unconditionally; the third component is the value it returns to the caller. -/
def collectList (c : Config) (cli : Client) (items : List Record) :
    List StoreOp × List String × Option String :=
  ((collectListGo c cli items).1, (collectListGo c cli items).2, none)

/-- Observable effects of one `Ping` call on its throwaway connection. -/
structure PingEffects where
  opened : Bool
  closed : Bool
  result : Option String
deriving Repr, DecidableEq

/-- `(*RedisSink).Ping`: runs `r.Validate(props)` (which stores the config on
success), then opens a throwaway client, probes it (`reply` is the probe's
outcome), closes it via `defer`, and returns the probe's error. -/
def ping (r : SinkState) (p : Props) (reply : Option String) :
    SinkState × PingEffects :=
  match validate p with
  | Except.error e => (r, ⟨false, false, some e⟩)
  | Except.ok c => ({ c := some c }, ⟨true, true, reply⟩)

/-! ### Concrete fixtures used by witnesses and counterexamples -/

/-- A single-key config with a static key, as validation would produce it. -/
def cfgSingleK : Config :=
  { key := "k", keyType := "single", dataType := "string", expiration := -1 }

/-- A multiple-key config. -/
def cfgMult : Config :=
  { keyType := "multiple", dataType := "string", expiration := -1 }

/-- A multiple-key config with a rowkind field configured. -/
def cfgMultRk : Config :=
  { keyType := "multiple", dataType := "string", expiration := -1, rowkindField := "op" }

/-- A single-key config with a dynamic key field. -/
def cfgField : Config :=
  { field := "id", keyType := "single", dataType := "string", expiration := -1 }

/-- A single-key config with a rowkind field configured. -/
def cfgRk : Config :=
  { key := "k", keyType := "single", dataType := "string", expiration := -1,
    rowkindField := "op" }

/-- A list-data-type config. -/
def cfgList : Config :=
  { key := "k", keyType := "single", dataType := "list", expiration := -1 }

/-- A client on which every operation succeeds. -/
def cliOk : Client := fun _ => none

/-- A client on which every operation fails. -/
def cliFail : Client := fun _ => some "boom"

/-- A client failing exactly the operations addressing key `"b"`. -/
def cliFailB : Client := fun op =>
  match op with
  | StoreOp.set k _ _ => if k = "b" then some "boom" else none
  | StoreOp.lpush k _ => if k = "b" then some "boom" else none
  | StoreOp.del k => if k = "b" then some "boom" else none
  | StoreOp.lpop k => if k = "b" then some "boom" else none

/-! ### Claim theorems -/

/-- Claim C2: with keyMode single and an empty `field`, resolution yields
exactly one Mutation keyed by the static configured key whose value is the
JSON encoding of the record; with a non-empty `field` present in the record,
the key is instead the string conversion of `record[field]`. -/
theorem single_mode_key_value (c : Config) (data : Record) (rk : String)
    (hm : c.keyType = "single")
    (hrk : resolveRowkind c data = Except.ok rk) :
    (c.field = "" → resolve c data = Except.ok [⟨c.key, jsonEncode data, rk⟩]) ∧
    (∀ v s, c.field ≠ "" → data.lookup c.field = some v →
      castToString v = Except.ok s →
      resolve c data = Except.ok [⟨s, jsonEncode data, rk⟩]) := by
  have hm' : ¬(c.keyType = "multiple") := by simp [hm]
  constructor
  · intro hf
    simp [resolve, resolveValues, hm', hf, hrk]
  · intro v s hf hv hs
    simp [resolve, resolveValues, hm', hf, hv, hs, hrk]

/-- Claim C2 witness at a concrete config and record. -/
theorem single_mode_key_value_witness :
    resolve cfgSingleK [("a", Value.int 1)] =
      Except.ok [⟨"k", jsonEncode [("a", Value.int 1)], "upsert"⟩] :=
  (single_mode_key_value cfgSingleK [("a", Value.int 1)] "upsert" rfl rfl).1 rfl

/-- Claim C3: with keyMode multiple, resolution yields exactly one Mutation
per record field, keyed by the field name with the best-effort string
conversion of the value; a failing conversion yields `""` for that field and
resolution never aborts because of it. -/
theorem multiple_mode_mutations (c : Config) (data : Record) (rk : String)
    (hm : c.keyType = "multiple")
    (hrk : resolveRowkind c data = Except.ok rk) :
    resolve c data =
      Except.ok (data.map fun kv => ⟨kv.1, castToStringOrEmpty kv.2, rk⟩) ∧
    (∀ v e, castToString v = Except.error e → castToStringOrEmpty v = "") := by
  constructor
  · simp [resolve, resolveValues, hm, hrk]
  · intro v e he
    simp [castToStringOrEmpty, he]

/-- Claim C3 witness: a two-field record, one field unconvertible, resolves to
one Mutation per field with `""` for the unconvertible one. -/
theorem multiple_mode_mutations_witness :
    resolve cfgMult [("a", Value.int 1), ("b", Value.obj [])] =
      Except.ok [⟨"a", "1", "upsert"⟩, ⟨"b", "", "upsert"⟩] := by
  have h := multiple_mode_mutations cfgMult
    [("a", Value.int 1), ("b", Value.obj [])] "upsert" rfl rfl
  exact h.1.trans (by rfl)

/-- Claim C4: rowkind derivation — `upsert` when `rowkindField` is not
configured or absent from the record; when configured and present, resolution
succeeds with rowkind `rk` exactly when the value is the string `rk` and `rk`
is one of the four recognized kinds, and fails otherwise. -/
theorem rowkind_derivation (c : Config) (data : Record) :
    (c.rowkindField = "" → resolveRowkind c data = Except.ok "upsert") ∧
    (c.rowkindField ≠ "" → data.lookup c.rowkindField = none →
      resolveRowkind c data = Except.ok "upsert") ∧
    (∀ v rk, c.rowkindField ≠ "" → data.lookup c.rowkindField = some v →
      (resolveRowkind c data = Except.ok rk ↔
        (v = Value.str rk ∧
          (rk = "insert" ∨ rk = "update" ∨ rk = "upsert" ∨ rk = "delete")))) ∧
    (∀ v, c.rowkindField ≠ "" → data.lookup c.rowkindField = some v →
      (∀ rk, ¬(v = Value.str rk ∧
          (rk = "insert" ∨ rk = "update" ∨ rk = "upsert" ∨ rk = "delete"))) →
      ∃ e, resolveRowkind c data = Except.error e) := by
  refine ⟨?_, ?_, ?_, ?_⟩
  · intro h
    simp [resolveRowkind, h]
  · intro h habs
    simp [resolveRowkind, h, habs]
  · intro v rk h hv
    cases v with
    | str s =>
      by_cases hs : s ≠ "insert" ∧ s ≠ "update" ∧ s ≠ "delete" ∧ s ≠ "upsert"
      · have hred : resolveRowkind c data = Except.error ("invalid rowkind " ++ s) := by
          simp [resolveRowkind, h, hv, hs]
        rw [hred]
        constructor
        · intro he
          exact Except.noConfusion he
        · rintro ⟨hvs, hrk⟩
          injection hvs with h2
          subst h2
          rcases hrk with h1 | h1 | h1 | h1 <;> simp [h1] at hs
      · have hred : resolveRowkind c data = Except.ok s := by
          simp [resolveRowkind, h, hv, hs]
        rw [hred]
        constructor
        · intro he
          injection he with h2
          subst h2
          refine ⟨rfl, ?_⟩
          by_contra hn
          push_neg at hn
          exact hs ⟨hn.1, hn.2.1, hn.2.2.2, hn.2.2.1⟩
        · rintro ⟨hvs, _⟩
          injection hvs with h2
          subst h2
          rfl
    | int n =>
      simp [resolveRowkind, h, hv]
    | bool b =>
      simp [resolveRowkind, h, hv]
    | null =>
      simp [resolveRowkind, h, hv]
    | arr vs =>
      simp [resolveRowkind, h, hv]
    | obj fs =>
      simp [resolveRowkind, h, hv]
  · intro v h hv hno
    cases v with
    | str s =>
      by_cases hs : s ≠ "insert" ∧ s ≠ "update" ∧ s ≠ "delete" ∧ s ≠ "upsert"
      · exact ⟨"invalid rowkind " ++ s, by simp [resolveRowkind, h, hv, hs]⟩
      · exfalso
        apply hno s
        refine ⟨rfl, ?_⟩
        by_contra hn
        push_neg at hn
        exact hs ⟨hn.1, hn.2.1, hn.2.2.2, hn.2.2.1⟩
    | int n =>
      exact ⟨"rowkind field " ++ c.rowkindField ++ " is not a string in data",
        by simp [resolveRowkind, h, hv]⟩
    | bool b =>
      exact ⟨"rowkind field " ++ c.rowkindField ++ " is not a string in data",
        by simp [resolveRowkind, h, hv]⟩
    | null =>
      exact ⟨"rowkind field " ++ c.rowkindField ++ " is not a string in data",
        by simp [resolveRowkind, h, hv]⟩
    | arr vs =>
      exact ⟨"rowkind field " ++ c.rowkindField ++ " is not a string in data",
        by simp [resolveRowkind, h, hv]⟩
    | obj fs =>
      exact ⟨"rowkind field " ++ c.rowkindField ++ " is not a string in data",
        by simp [resolveRowkind, h, hv]⟩

/-- Claim C4 witness: a present string rowkind `delete` resolves to `delete`;
a present non-string rowkind value makes resolution fail. -/
theorem rowkind_derivation_witness :
    resolveRowkind cfgRk [("op", Value.str "delete")] = Except.ok "delete" ∧
    (∃ e, resolveRowkind cfgRk [("op", Value.int 3)] = Except.error e) := by
  constructor
  · exact ((rowkind_derivation cfgRk [("op", Value.str "delete")]).2.2.1
      (Value.str "delete") "delete" (by decide) rfl).mpr ⟨rfl, by simp⟩
  · exact (rowkind_derivation cfgRk [("op", Value.int 3)]).2.2.2
      (Value.int 3) (by decide) rfl (fun rk hc => by cases hc.1)

/-- Claim C5: the store operation issued for one resolved mutation is
determined by the rowkind and the data type — insert/update/upsert issue SET
with the configured expiration (string) or LIST-PUSH-FRONT (list), delete
issues DELETE (string) or LIST-POP-FRONT (list). -/
theorem dispatch_ops (c : Config) (cli : Client) (rk key val : String)
    (hok : ∀ op, cli op = none) :
    ((rk = "insert" ∨ rk = "update" ∨ rk = "upsert") →
      (c.dataType = "string" →
        writeValues c cli rk [(key, val)] = ([StoreOp.set key val c.expiration], none)) ∧
      (c.dataType = "list" →
        writeValues c cli rk [(key, val)] = ([StoreOp.lpush key val], none))) ∧
    (rk = "delete" →
      (c.dataType = "string" →
        writeValues c cli rk [(key, val)] = ([StoreOp.del key], none)) ∧
      (c.dataType = "list" →
        writeValues c cli rk [(key, val)] = ([StoreOp.lpop key], none))) := by
  constructor
  · intro hrk
    constructor
    · intro hd
      have hd' : ¬(c.dataType = "list") := by simp [hd]
      simp [writeValues, opFor, hrk, hd', hok]
    · intro hd
      simp [writeValues, opFor, hrk, hd, hok]
  · intro hrk
    have hrk' : ¬(rk = "insert" ∨ rk = "update" ∨ rk = "upsert") := by simp [hrk]
    constructor
    · intro hd
      have hd' : ¬(c.dataType = "list") := by simp [hd]
      simp [writeValues, opFor, hrk, hrk', hd', hok]
    · intro hd
      simp [writeValues, opFor, hrk, hrk', hd, hok]

/-- Claim C5 witness: rowkind `delete` with dataType `list` dispatches
LIST-POP-FRONT, and with dataType `string` it dispatches DELETE. -/
theorem dispatch_ops_witness :
    writeValues cfgList cliOk "delete" [("k", "v")] = ([StoreOp.lpop "k"], none) ∧
    writeValues cfgSingleK cliOk "delete" [("k", "v")] = ([StoreOp.del "k"], none) :=
  ⟨((dispatch_ops cfgList cliOk "delete" "k" "v" (fun _ => rfl)).2 rfl).2 rfl,
   ((dispatch_ops cfgSingleK cliOk "delete" "k" "v" (fun _ => rfl)).2 rfl).1 rfl⟩

/-- Claim C6: in single key mode with a non-empty `field` absent from the
record, resolution fails with the missing-field error, produces no mutations,
and `save` issues no store operation. -/
theorem missing_field_error (c : Config) (cli : Client) (data : Record)
    (hm : c.keyType = "single") (hf : c.field ≠ "")
    (habs : data.lookup c.field = none) :
    resolve c data =
      Except.error ("field " ++ c.field ++ " does not exist in data") ∧
    save c cli data =
      ([], some ("field " ++ c.field ++ " does not exist in data")) := by
  have hm' : ¬(c.keyType = "multiple") := by simp [hm]
  constructor
  · simp [resolve, resolveValues, hm', hf, habs]
  · simp [save, resolveValues, hm', hf, habs]

/-- Claim C6 witness: a record without the configured key field. -/
theorem missing_field_error_witness :
    save cfgField cliOk [("name", Value.str "x")] =
      ([], some ("field " ++ "id" ++ " does not exist in data")) :=
  (missing_field_error cfgField cliOk [("name", Value.str "x")]
    rfl (by decide) rfl).2

/-- Claim C10: in multiple key mode an empty record resolves to zero
mutations and `save` issues no store operation and returns no error, also
when a rowkind field is configured. -/
theorem empty_record_multiple (c : Config) (cli : Client)
    (hm : c.keyType = "multiple") :
    save c cli [] = ([], none) ∧ resolve c [] = Except.ok [] := by
  have hrk : resolveRowkind c [] = Except.ok "upsert" := by
    unfold resolveRowkind
    split <;> simp
  constructor
  · simp [save, resolveValues, hm, hrk, writeValues]
  · simp [resolve, resolveValues, hm, hrk]

/-- Claim C10 witness: a config with a configured rowkind field, an empty
record, and a client failing every operation: no operation, no error. -/
theorem empty_record_multiple_witness :
    save cfgMultRk cliFail [] = ([], none) :=
  (empty_record_multiple cfgMultRk cliFail rfl).1

/-- Claim C1 counterexample: with keyMode multiple, a two-field record and a
store failing every operation, only one store operation is attempted — the
failure on the first key prevents the attempt on the remaining key, and only
the first key's error is surfaced. -/
theorem partial_failure_counterexample :
    (save cfgMult cliFail [("a", Value.str "1"), ("b", Value.str "2")]).1 =
      [StoreOp.set "a" "1" (-1)] ∧
    (save cfgMult cliFail [("a", Value.str "1"), ("b", Value.str "2")]).2 =
      some "set a:1 error, boom" ∧
    (resolve cfgMult [("a", Value.str "1"), ("b", Value.str "2")]).toOption.map
        List.length = some 2 := by
  refine ⟨rfl, rfl, rfl⟩

/-- The write loop on a pair list whose operations all succeed up to a pair
whose operation fails: the attempted operations are the successful prefix's
plus the failing one, the returned error is the failing operation's as
`wrapErr` formats it, and the remaining pairs are not attempted. -/
theorem writeValues_first_fail (c : Config) (cli : Client) (rk : String)
    (vs1 vs2 : List (String × String)) (k val : String) (op : StoreOp)
    (e : String)
    (h1 : ∀ o ∈ opsOf c rk vs1, cli o = none)
    (hop : opFor c rk k val = some op)
    (he : cli op = some e) :
    writeValues c cli rk (vs1 ++ (k, val) :: vs2) =
      (opsOf c rk vs1 ++ [op], some (wrapErr op e)) := by
  induction vs1 with
  | nil =>
    simp [writeValues, opsOf, hop, he]
  | cons kv rest ih =>
    obtain ⟨k1, v1⟩ := kv
    cases hop1 : opFor c rk k1 v1 with
    | none =>
      have hcons : opsOf c rk ((k1, v1) :: rest) = opsOf c rk rest := by
        simp [opsOf, hop1]
      have h1' : ∀ o ∈ opsOf c rk rest, cli o = none := by
        intro o ho
        exact h1 o (by rw [hcons]; exact ho)
      have hih := ih h1'
      rw [hcons]
      simpa [writeValues, hop1] using hih
    | some o1 =>
      have hcons : opsOf c rk ((k1, v1) :: rest) = o1 :: opsOf c rk rest := by
        simp [opsOf, hop1]
      have ho1 : cli o1 = none := by
        apply h1 o1
        rw [hcons]
        exact List.mem_cons_self _ _
      have h1' : ∀ o ∈ opsOf c rk rest, cli o = none := by
        intro o ho
        exact h1 o (by rw [hcons]; exact List.mem_cons_of_mem _ ho)
      have hih := ih h1'
      rw [hcons]
      simp [writeValues, hop1, ho1, hih]

/-- Claim C1 amended: in multiple key mode the write loop stops at the first
per-key store failure, wherever it occurs: the failing key's operation is the
last one attempted, the remaining keys' operations are not attempted, and the
caller receives only that first failure's error, formatted as the code does —
with the failing key and value for SET and LIST-PUSH-FRONT, with the failing
key for LIST-POP-FRONT, and as the raw client error for DELETE. -/
theorem first_failure_aborts (c : Config) (cli : Client) (d1 d2 : Record)
    (k : String) (v : Value) (rk : String) (op : StoreOp) (e : String)
    (hm : c.keyType = "multiple")
    (hrk : resolveRowkind c (d1 ++ (k, v) :: d2) = Except.ok rk)
    (h1 : ∀ o ∈ opsOf c rk (d1.map fun kv => (kv.1, castToStringOrEmpty kv.2)),
      cli o = none)
    (hop : opFor c rk k (castToStringOrEmpty v) = some op)
    (he : cli op = some e) :
    save c cli (d1 ++ (k, v) :: d2) =
      (opsOf c rk (d1.map fun kv => (kv.1, castToStringOrEmpty kv.2)) ++ [op],
       some (wrapErr op e)) := by
  have hres : resolveValues c (d1 ++ (k, v) :: d2) =
      Except.ok ((d1.map fun kv => (kv.1, castToStringOrEmpty kv.2)) ++
        (k, castToStringOrEmpty v) ::
          (d2.map fun kv => (kv.1, castToStringOrEmpty kv.2))) := by
    simp [resolveValues, hm]
  simp only [save, hres, hrk]
  exact writeValues_first_fail c cli rk _ _ k (castToStringOrEmpty v) op e
    h1 hop he

/-- Claim C1 amended witness: a three-field record where the store fails on
the middle key — the first key's SET succeeds and is attempted, the second
key's SET fails and its wrapped error is returned, the third key is never
attempted. -/
theorem first_failure_aborts_witness :
    save cfgMult cliFailB
        [("a", Value.str "1"), ("b", Value.str "2"), ("c", Value.str "3")] =
      ([StoreOp.set "a" "1" (-1), StoreOp.set "b" "2" (-1)],
       some ("set " ++ "b" ++ ":" ++ "2" ++ " error, " ++ "boom")) := by
  have h := first_failure_aborts cfgMult cliFailB
    [("a", Value.str "1")] [("c", Value.str "3")] "b" (Value.str "2")
    "upsert" (StoreOp.set "b" "2" (-1)) "boom" rfl rfl (by decide) rfl rfl
  exact h.trans (by rfl)

/-- Props carrying only `db = 16`. -/
def pDb16 : Props := { db := some 16 }

/-- Props carrying only `db = -1`. -/
def pDbNeg : Props := { db := some (-1) }

/-- Props with `db = 0` and a key, otherwise defaults. -/
def pDb0 : Props := { db := some 0, key := some "k" }

/-- Props with `db = 15` and a key, otherwise defaults. -/
def pDb15 : Props := { db := some 15, key := some "k" }

/-- Props carrying only a key `"b"`, validating successfully. -/
def pKeyB : Props := { key := some "b" }

/-- The range body of `CollectList` distributes over batch concatenation. -/
theorem collectListGo_append (c : Config) (cli : Client) (ds1 ds2 : List Record) :
    collectListGo c cli (ds1 ++ ds2) =
      ((collectListGo c cli ds1).1 ++ (collectListGo c cli ds2).1,
       (collectListGo c cli ds1).2 ++ (collectListGo c cli ds2).2) := by
  induction ds1 with
  | nil => simp [collectListGo]
  | cons d rest ih => simp [collectListGo, ih]

/-- Claim C7: batch collection handles each record independently in sequence
— the operations and logged errors of a batch are the concatenation of those
of its parts, a single record's logged error is exactly its `save` error, and
the batch call returns no error regardless of per-record failures. -/
theorem batch_best_effort (c : Config) (cli : Client) (ds1 ds2 : List Record) :
    (collectList c cli (ds1 ++ ds2)).1 =
      (collectList c cli ds1).1 ++ (collectList c cli ds2).1 ∧
    (collectList c cli (ds1 ++ ds2)).2.1 =
      (collectList c cli ds1).2.1 ++ (collectList c cli ds2).2.1 ∧
    (∀ d, (collectList c cli [d]).1 = (save c cli d).1 ∧
      (collectList c cli [d]).2.1 = (save c cli d).2.toList) ∧
    (collectList c cli (ds1 ++ ds2)).2.2 = none := by
  refine ⟨?_, ?_, ?_, rfl⟩
  · simp [collectList, collectListGo_append]
  · simp [collectList, collectListGo_append]
  · intro d
    simp [collectList, collectListGo]

/-- Claim C8: validation rejects db 16 and db -1; accepts db 0 and db 15 when
the key-mode, data-type and single-mode key invariants hold; and a failed
validation leaves the sink's stored config unchanged. -/
theorem validate_db_and_state (p : Props) (r : SinkState) :
    ((mapToStruct p).db = 16 → ∃ e, validate p = Except.error e) ∧
    ((mapToStruct p).db = -1 → ∃ e, validate p = Except.error e) ∧
    (((mapToStruct p).db = 0 ∨ (mapToStruct p).db = 15) →
      ((mapToStruct p).keyType = "single" ∨ (mapToStruct p).keyType = "multiple") →
      ((mapToStruct p).dataType = "string" ∨ (mapToStruct p).dataType = "list") →
      ((mapToStruct p).keyType = "single" →
        (mapToStruct p).key ≠ "" ∨ (mapToStruct p).field ≠ "") →
      validate p = Except.ok (mapToStruct p)) ∧
    (∀ e, (validateM r p).2 = some e → (validateM r p).1 = r) := by
  refine ⟨?_, ?_, ?_, ?_⟩
  · intro h
    exact ⟨"redisSink db should be in range 0-15", by simp [validate, h]⟩
  · intro h
    exact ⟨"redisSink db should be in range 0-15", by simp [validate, h]⟩
  · intro hdb hkt hdt hkf
    have c1 : ¬((mapToStruct p).db < 0 ∨ (mapToStruct p).db > 15) := by
      rcases hdb with h | h <;> rw [h] <;> decide
    have c2 : ¬((mapToStruct p).keyType = "single" ∧
        (mapToStruct p).key = "" ∧ (mapToStruct p).field = "") := by
      rintro ⟨h1, h2, h3⟩
      rcases hkf h1 with h | h
      · exact h h2
      · exact h h3
    have c3 : ¬((mapToStruct p).keyType ≠ "single" ∧
        (mapToStruct p).keyType ≠ "multiple") := by
      rcases hkt with h | h <;> simp [h]
    have c4 : ¬((mapToStruct p).dataType ≠ "string" ∧
        (mapToStruct p).dataType ≠ "list") := by
      rcases hdt with h | h <;> simp [h]
    simp [validate, c1, c2, c3, c4]
  · intro e he
    unfold validateM at he ⊢
    cases hv : validate p with
    | ok c =>
      rw [hv] at he
      simp at he
    | error e2 =>
      rfl

/-- Claim C8 witness: db 16 and db -1 rejected, db 0 and db 15 accepted, and
a failed validation leaves a concretely stored config in place. -/
theorem validate_db_and_state_witness :
    (∃ e, validate pDb16 = Except.error e) ∧
    (∃ e, validate pDbNeg = Except.error e) ∧
    validate pDb0 = Except.ok (mapToStruct pDb0) ∧
    validate pDb15 = Except.ok (mapToStruct pDb15) ∧
    (validateM ⟨some cfgSingleK⟩ pDb16).1 = ⟨some cfgSingleK⟩ := by
  refine ⟨?_, ?_, ?_, ?_, ?_⟩
  · exact (validate_db_and_state pDb16 ⟨some cfgSingleK⟩).1 rfl
  · exact (validate_db_and_state pDbNeg ⟨some cfgSingleK⟩).2.1 rfl
  · exact (validate_db_and_state pDb0 ⟨some cfgSingleK⟩).2.2.1
      (Or.inl rfl) (Or.inl rfl) (Or.inl rfl) (fun _ => Or.inl (by decide))
  · exact (validate_db_and_state pDb15 ⟨some cfgSingleK⟩).2.2.1
      (Or.inr rfl) (Or.inl rfl) (Or.inl rfl) (fun _ => Or.inl (by decide))
  · exact (validate_db_and_state pDb16 ⟨some cfgSingleK⟩).2.2.2
      "redisSink db should be in range 0-15" rfl

/-- Claim C9 counterexample: ping is not stateless — with a stored config
whose key is `"k"`, pinging with props whose key is `"b"` (which validate
successfully) overwrites the stored config. -/
theorem ping_not_stateless :
    (ping ⟨some cfgSingleK⟩ pKeyB none).1 ≠ ⟨some cfgSingleK⟩ := by
  decide

/-- Claim C9 amended: ping reuses the validation path, which stores the
validated config on success — after a successful validation the stored config
is the newly validated one, after a failed validation the stored state is
unchanged and no connection is opened, and the throwaway connection is closed
exactly when it was opened, regardless of the probe outcome. -/
theorem ping_behavior (r : SinkState) (p : Props) (reply : Option String) :
    (∀ e, validate p = Except.error e →
      ping r p reply = (r, ⟨false, false, some e⟩)) ∧
    (∀ c, validate p = Except.ok c →
      ping r p reply = (⟨some c⟩, ⟨true, true, reply⟩)) ∧
    (ping r p reply).2.opened = (ping r p reply).2.closed := by
  refine ⟨?_, ?_, ?_⟩
  · intro e he
    simp [ping, he]
  · intro c hc
    simp [ping, hc]
  · cases hv : validate p <;> simp [ping, hv]

/-- Claim C9 amended witness: a ping with validating props on a sink holding
a differing config — the probe connection opens and closes and the stored
config becomes the newly validated one. -/
theorem ping_behavior_witness :
    ping ⟨some cfgSingleK⟩ pKeyB none =
      (⟨some (mapToStruct pKeyB)⟩, ⟨true, true, none⟩) :=
  (ping_behavior ⟨some cfgSingleK⟩ pKeyB none).2.1 (mapToStruct pKeyB) rfl

end RedisSink
